import Mathlib

/-!
Shallow embedding of the core of `iss_tracker.py` (a Flask app serving ISS
orbital state vectors) and proofs about the claims of its specification.

Modelling conventions:
* Python floats are modelled as exact rationals (`ℚ`) where the program only
  stores and compares them, and as reals (`ℝ`) where it computes with
  `math.sqrt` / `math.atan2` / `math.degrees`.
* The parsed XML record shape is dynamic in Python: a coordinate field is
  either a nested dict `\x7b'#text': v, '@units': u\x7d` or (after the in-place
  normalization performed by `get_state_vectors`) a plain float.  `FieldVal`
  captures both shapes.
* A raised Python exception is modelled as an explicit `raised` result;
  fallible routes return their result together with the store contents at the
  moment of return (the store is module-global mutable state in the source).
* `time.time()` / `time.mktime(time.strptime(epoch[:-5], ...))` are modelled
  as an explicit reference time and an explicit epoch-to-seconds function
  passed as parameters (they depend on wall clock and local timezone).
-/

/-- One coordinate field of a parsed state vector: either the nested
`xmltodict` shape (text payload plus units attribute) or a plain number
(the shape after `get_state_vectors` has normalized it in place). -/
inductive FieldVal where
  | nested (text : ℚ) (units : String)
  | num (val : ℚ)
  deriving DecidableEq, Repr

/-- A state-vector record as stored in the module-global `iss_data` list:
epoch string plus six coordinate fields (position km, velocity km/s). -/
structure StateVec where
  EPOCH : String
  X : FieldVal
  Y : FieldVal
  Z : FieldVal
  X_DOT : FieldVal
  Y_DOT : FieldVal
  Z_DOT : FieldVal
  deriving DecidableEq, Repr

/-- A state vector whose coordinate fields have been normalized to plain
numbers (the shape `get_state_vectors` returns for a found epoch). -/
structure NormVec where
  EPOCH : String
  X : ℚ
  Y : ℚ
  Z : ℚ
  X_DOT : ℚ
  Y_DOT : ℚ
  Z_DOT : ℚ
  deriving DecidableEq, Repr

/-- Numeric content of a field: the `#text` payload of the nested shape, or
the plain value. -/
def fvVal : FieldVal → ℚ
  | .nested t _ => t
  | .num v => v

/-- The normalization `get_state_vectors` applies to a found record:
`float(field['#text'])` for nested fields, identity for plain floats. -/
def toNorm (sv : StateVec) : NormVec :=
  ⟨sv.EPOCH, fvVal sv.X, fvVal sv.Y, fvVal sv.Z,
    fvVal sv.X_DOT, fvVal sv.Y_DOT, fvVal sv.Z_DOT⟩

/-- A normalized record viewed again as a stored record (all fields plain
numbers); this is what the in-place mutation leaves in the store. -/
def fromNorm (n : NormVec) : StateVec :=
  ⟨n.EPOCH, .num n.X, .num n.Y, .num n.Z,
    .num n.X_DOT, .num n.Y_DOT, .num n.Z_DOT⟩

/-- Semantic content of a stored record: epoch key and the numeric value of
each coordinate field, ignoring the nested-versus-plain representation. -/
def svValue (sv : StateVec) : String × ℚ × ℚ × ℚ × ℚ × ℚ × ℚ :=
  (sv.EPOCH, fvVal sv.X, fvVal sv.Y, fvVal sv.Z,
    fvVal sv.X_DOT, fvVal sv.Y_DOT, fvVal sv.Z_DOT)

/-! ### Model of Python `int(str)` -/

/-- Value of an ASCII digit character. -/
def digToNat (c : Char) : Nat := c.toNat - 48

/-- Accumulate a decimal digit string into a natural number. -/
def digitsToNat (cs : List Char) : Nat := cs.foldl (fun n c => n * 10 + digToNat c) 0

/-- Parse a nonempty all-ASCII-digit character list. -/
def pyIntCore (cs : List Char) : Option Int :=
  if cs ≠ [] ∧ cs.all (·.isDigit) then some (digitsToNat cs) else none

/-- Strip leading and trailing whitespace. -/
def stripWs (cs : List Char) : List Char :=
  ((cs.dropWhile (·.isWhitespace)).reverse.dropWhile (·.isWhitespace)).reverse

/-- Model of Python `int(s)` on a character list: optional surrounding
whitespace, optional sign, then one or more decimal digits; `none` models a
raised `ValueError`.  (Digit-group underscores and non-ASCII digits, which
CPython also accepts, are outside the model's scope; no claim depends on
them.) -/
def pyInt (cs : List Char) : Option Int :=
  match stripWs cs with
  | '-' :: rest => (pyIntCore rest).map (fun n => -n)
  | '+' :: rest => pyIntCore rest
  | rest => pyIntCore rest

/-! ### `/epochs` route (`get_epochs`, source lines 33-66) -/

/-- The scan loop of `get_epochs` (source lines 56-66).  `limit = some l`
models an integer limit; `limit = none` models the case where the `limit`
query parameter was the empty string, so the Python comparison
`count == limit` is an `int == str` comparison that is always `False`. -/
def epochsLoop : List StateVec → Int → Option Int → Int → Int → List String
  | [], _, _, _, _ => []
  | sv :: rest, offset, limit, count, index =>
    if limit = some count then []
    else if offset ≤ index then
      sv.EPOCH :: epochsLoop rest offset limit (count + 1) (index + 1)
    else epochsLoop rest offset limit count (index + 1)

/-- Result of the `/epochs` route: a normal epoch list, a `Bad input`
rejection string, or a raised exception (`TypeError` from comparing an `int`
index with a `str` offset). -/
inductive EpochsResult where
  | ok (epochs : List String)
  | bad (msg : String)
  | raised
  deriving DecidableEq, Repr

/-- Model of the `if param: try: int(param) except ValueError: ...` dance of
`get_epochs`: `none` models the `ValueError` branch, `some none` the case
where the parameter is the empty string (falsy, so it stays a string), and
`some (some n)` a successful parse. -/
def parseParam (s : String) : Option (Option Int) :=
  if s = "" then some none
  else
    match pyInt s.data with
    | none => none
    | some n => some (some n)

/-- Model of `get_epochs` (source lines 33-66).  `offsetP`/`limitP` are the
raw query-parameter strings (absent parameters default to `"0"` and to the
store length).  When the offset stayed a string (empty parameter), the loop
raises `TypeError` on its first `index >= offset` comparison — unless the
store is empty or the limit is the integer `0`, in which case the loop exits
before reaching that comparison. -/
def get_epochs (offsetP limitP : Option String) (data : List StateVec) : EpochsResult :=
  let offsetS := offsetP.getD "0"
  let limitS := limitP.getD (toString data.length)
  match parseParam offsetS with
  | none => .bad "Bad input: please specify a positive integer for offset\n"
  | some offsetV =>
    match parseParam limitS with
    | none => .bad "Bad input: please specify a positive integer for limit\n"
    | some limitV =>
      match offsetV with
      | some o => .ok (epochsLoop data o limitV 0 0)
      | none => if data.isEmpty ∨ limitV = some 0 then .ok [] else .raised

/-- Is the `/epochs` result a validation rejection? -/
def isRejection : EpochsResult → Bool
  | .bad _ => true
  | _ => false

/-! ### Sample records used in concrete evaluations -/

/-- A sample parsed record (nested field shapes, as handed back by
`xmltodict`). -/
def svE0 : StateVec :=
  ⟨"E0", .nested 1 "km", .nested 2 "km", .nested 3 "km",
    .nested 4 "km/s", .nested 5 "km/s", .nested 6 "km/s"⟩

/-- A second sample record with epoch `"E1"`. -/
def svE1 : StateVec :=
  ⟨"E1", .nested 7 "km", .nested 8 "km", .nested 9 "km",
    .nested 1 "km/s", .nested 2 "km/s", .nested 3 "km/s"⟩

/-- Epoch-to-seconds assignment placing epoch `"E1"` 100 seconds before the
reference time 0 and every other epoch exactly at it (so the first record of
`[svE0, svE1]` is strictly nearest). -/
def esC1 : String → ℚ := fun e => if e = "E1" then 100 else 0

/-- The scenario record of the specification's test bullet: epoch
`2023-058T12:00:00.000Z`, position (6800, 0, 0) km, velocity
(0, 7.5, 0) km/s, in the nested parsed shape. -/
def svScn : StateVec :=
  ⟨"2023-058T12:00:00.000Z", .nested 6800 "km", .nested 0 "km", .nested 0 "km",
    .nested 0 "km/s", .nested 7.5 "km/s", .nested 0 "km/s"⟩

/-- Two distinct records sharing one epoch (used to separate first-match from
last-match behavior). -/
def svDupA : StateVec :=
  ⟨"EDUP", .nested 1 "km", .nested 0 "km", .nested 0 "km",
    .nested 0 "km/s", .nested 0 "km/s", .nested 0 "km/s"⟩

/-- The second record with the duplicated epoch; its `X` field differs from
`svDupA`'s. -/
def svDupB : StateVec :=
  ⟨"EDUP", .nested 2 "km", .nested 0 "km", .nested 0 "km",
    .nested 0 "km/s", .nested 0 "km/s", .nested 0 "km/s"⟩

/-! ### `/epochs/<epoch>` route (`get_state_vectors`, source lines 68-87) -/

/-- The scan loop of `get_state_vectors`.  `acc` is the current value of
`epoch_output` (initially the empty dict, modelled as `none`).  Python has no
`break` here, so every matching record is normalized in place in the store
and the last match is the one finally returned.  The second component is the
store after the loop (the in-place mutation of `iss_data`). -/
def svScanAux (epoch : String) (acc : Option NormVec) :
    List StateVec → Option NormVec × List StateVec
  | [] => (acc, [])
  | sv :: rest =>
    if sv.EPOCH = epoch then
      let n := toNorm sv
      let r := svScanAux epoch (some n) rest
      (r.1, fromNorm n :: r.2)
    else
      let r := svScanAux epoch acc rest
      (r.1, sv :: r.2)

/-- Model of `get_state_vectors` (source lines 68-87): the returned record
(`none` models the empty dict for a missing epoch) together with the store
contents after the call. -/
def get_state_vectors (epoch : String) (data : List StateVec) :
    Option NormVec × List StateVec :=
  svScanAux epoch none data

/-! ### `/epochs/<epoch>/speed` route (`get_speed`, source lines 89-105) -/

/-- Model of `get_speed` (source lines 89-105): `some v` models the dict
`\x7b'value': v, 'units': "km/s"\x7d`, `none` the empty dict for a missing epoch.
The second component is the store after the call (mutated through
`get_state_vectors`). -/
noncomputable def get_speed (epoch : String) (data : List StateVec) : Option ℝ × List StateVec :=
  match get_state_vectors epoch data with
  | (none, d') => (none, d')
  | (some n, d') =>
    (some (Real.sqrt ((n.X_DOT : ℝ) ^ 2 + (n.Y_DOT : ℝ) ^ 2 + (n.Z_DOT : ℝ) ^ 2)), d')

/-! ### `/epochs/<epoch>/location` route (`get_location`, source lines 107-142) -/

/-- Model of `math.atan2 y x`: four-quadrant arctangent with range
`(-pi, pi]` (the real model has a single zero, so `atan2 0 0 = 0` as in
CPython for positive zeros). -/
noncomputable def atan2 (y x : ℝ) : ℝ :=
  if 0 < x then Real.arctan (y / x)
  else if x < 0 then
    (if 0 ≤ y then Real.arctan (y / x) + Real.pi else Real.arctan (y / x) - Real.pi)
  else if 0 < y then Real.pi / 2
  else if y < 0 then -(Real.pi / 2)
  else 0

/-- Model of `math.degrees`. -/
noncomputable def degrees (r : ℝ) : ℝ := r * 180 / Real.pi

/-- Source line 13: mean Earth radius in km. -/
noncomputable def MEAN_EARTH_RADIUS : ℝ := 6378.137

/-- The longitude computation of `get_location` (source lines 128-134): raw
`atan2` longitude, minus the Earth-rotation correction from the hour/minute
fields, plus the fixed 24-degree offset, then a single conditional 360-degree
wrap. -/
noncomputable def pyLongitude (x y : ℝ) (hrs mins : ℤ) : ℝ :=
  let lon := degrees (atan2 y x) - (((hrs : ℝ) - 12) + (mins : ℝ) / 60) * (360 / 24) + 24
  if 180 < lon then lon - 360 else if lon < -180 then lon + 360 else lon

/-- Sentinel returned when the reverse geocoder has no coverage
(source line 139). -/
def OCEAN_SENTINEL : String := "No geolocation data available, ISS is over the ocean"

/-- Result of the `/epochs/<epoch>/location` route: a raised exception
(`ValueError` from `int()` on a malformed hour/minute substring of a found
record's epoch), the empty dict for a missing epoch, or the location dict. -/
inductive LocResult where
  | raised
  | empty
  | found (lat lon alt : ℝ) (geopos : String)

/-- Model of `get_location` (source lines 107-142).  `geo lat lon` models
`geocoder.reverse(...)`: `none` when the geocoder reports no coverage.  The
hour and minute are `int(epoch[9:11])` and `int(epoch[12:14])` on the found
record's epoch string.  The second component is the store after the call. -/
noncomputable def get_location (geo : ℝ → ℝ → Option String) (epoch : String)
    (data : List StateVec) : LocResult × List StateVec :=
  match get_state_vectors epoch data with
  | (none, d') => (.empty, d')
  | (some n, d') =>
    match pyInt ((n.EPOCH.data.drop 9).take 2), pyInt ((n.EPOCH.data.drop 12).take 2) with
    | some hrs, some mins =>
      let x : ℝ := (n.X : ℝ)
      let y : ℝ := (n.Y : ℝ)
      let z : ℝ := (n.Z : ℝ)
      let lat := degrees (atan2 z (Real.sqrt (x ^ 2 + y ^ 2)))
      let lon := pyLongitude x y hrs mins
      let alt := Real.sqrt (x ^ 2 + y ^ 2 + z ^ 2) - MEAN_EARTH_RADIUS
      let gp := match geo lat lon with
        | none => OCEAN_SENTINEL
        | some addr => addr
      (.found lat lon alt gp, d')
    | _, _ => (.raised, d')

/-! ### `/now` route (`get_now`, source lines 144-174) -/

/-- Result of the `/now` route: a raised exception (`UnboundLocalError` when
`min_state_vector` is read without ever having been assigned, or a
propagated exception from `get_location`), the empty dict for an empty
store, or the assembled snapshot. -/
inductive NowResult where
  | raised
  | empty
  | snap (closest_epoch : String) (time_difference : ℚ) (location : LocResult) (speed : Option ℝ)

/-- The scan loop of `get_now` (source lines 160-169).  Carries
`min_difference` and the value of `min_state_vector`, which starts out
*unassigned* (`none`): the source initializes the dead variable
`min_state_vec` (note the missing `tor`) instead, so `min_state_vector` is
assigned only inside the strict-improvement branch. -/
def nowScan (es : String → ℚ) (ref : ℚ) :
    List StateVec → ℚ → Option StateVec → ℚ × Option StateVec
  | [], mdiff, msv => (mdiff, msv)
  | sv :: rest, mdiff, msv =>
    let d := ref - es sv.EPOCH
    if |d| < |mdiff| then nowScan es ref rest d (some sv)
    else nowScan es ref rest mdiff msv

/-- Model of `get_now` (source lines 144-174).  `es` models
`time.mktime(time.strptime(epoch[:-5], '%Y-%jT%H:%M:%S'))` (epoch string to
Unix seconds in the local timezone) and `ref` models `time.time()` (held
fixed across the scan; the claims quantify over an explicit reference
time).  Reading `min_state_vector` when the scan never assigned it is the
`UnboundLocalError` modelled by `.raised`.  The second component is the
store after the call (mutated through the `get_location`/`get_speed`
calls). -/
noncomputable def get_now (es : String → ℚ) (ref : ℚ) (geo : ℝ → ℝ → Option String)
    (data : List StateVec) : NowResult × List StateVec :=
  match data with
  | [] => (.empty, data)
  | first :: _ =>
    let scan := nowScan es ref data (ref - es first.EPOCH) none
    match scan.2 with
    | none => (.raised, data)
    | some winner =>
      match get_location geo winner.EPOCH data with
      | (.raised, d') => (.raised, d')
      | (.empty, d') =>
        let sp := get_speed winner.EPOCH d'
        (.snap winner.EPOCH scan.1 .empty sp.1, sp.2)
      | (.found lat lon alt gp, d') =>
        let sp := get_speed winner.EPOCH d'
        (.snap winner.EPOCH scan.1 (.found lat lon alt gp) sp.1, sp.2)

/-! ### Store lifecycle: `/` (`index`), `/delete-data`, `/post-data` -/

/-- Value of the module-global `iss_data`: normally the record list, but
after a `post_data` whose key-path extraction failed, the raw parsed
document (the first of the two assignments in lines 219-222 has already
happened). -/
inductive StoreVal where
  | records (recs : List StateVec)
  | raw (doc : String)
  deriving DecidableEq

/-- Model of the `/` route (source lines 20-31): returns the current store
contents. -/
def index (store : StoreVal) : StoreVal := store

/-- Model of `delete_data` (source lines 192-205): clears the store. -/
def delete_data (_store : StoreVal) : String × StoreVal :=
  ("ISS Data has been deleted\n", .records [])

/-- Outcome of the `/post-data` route: the success message, or a raised
exception from the fetch, the XML parse, or the key-path extraction. -/
inductive PostResult where
  | ok
  | raised
  deriving DecidableEq

/-- Model of `post_data` (source lines 207-223).  `fetch` models
`requests.get(...).text` (`none` = the fetch raised), `parseXml` models
`xmltodict.parse` (`none` = parse error raised), `extract` models the
`['ndm']['oem']['body']['segment']['data']['stateVector']` key path
(`none` = `KeyError` raised).  Crucially, line 220 assigns the parsed
document to the global `iss_data` *before* line 222 extracts the record
list, so a failing extraction leaves the raw document in the store. -/
def post_data (fetch : Option String) (parseXml : String → Option String)
    (extract : String → Option (List StateVec)) (store : StoreVal) :
    PostResult × StoreVal :=
  match fetch with
  | none => (.raised, store)
  | some txt =>
    match parseXml txt with
    | none => (.raised, store)
    | some doc =>
      match extract doc with
      | none => (.raised, .raw doc)
      | some recs => (.ok, .records recs)

example : epochsLoop [svE0] 0 (some (-1)) 0 0 = ["E0"] := by decide
example : get_epochs none (some "") [svE0] = .ok ["E0"] := by decide
example : get_epochs (some "abc") none [svE0] =
    .bad "Bad input: please specify a positive integer for offset\n" := by decide
example : get_epochs (some "") none [svE0] = .raised := by decide
example : get_epochs (some "") (some "0") [svE0] = .ok [] := by decide
example : get_epochs (some "1") (some "2") [svE0, svE0, svE0, svE0] = .ok ["E0", "E0"] := by decide

/-! ## Characterization of the `get_epochs` scan loop -/

/-- With a string (empty-parameter) limit the loop never breaks and yields
every epoch from index `offset` on. -/
theorem epochsLoop_none_eq (data : List StateVec) (offset : Int) :
    ∀ count i : Int, epochsLoop data offset none count i =
      (data.map (·.EPOCH)).drop (offset - i).toNat := by
  induction data with
  | nil => intro c i; simp [epochsLoop]
  | cons sv rest ih =>
    intro c i
    simp only [epochsLoop, List.map_cons]
    rw [if_neg (by simp)]
    by_cases h : offset ≤ i
    · rw [if_pos h, ih]
      have h0 : (offset - i).toNat = 0 := by omega
      have h1 : (offset - (i + 1)).toNat = 0 := by omega
      simp [h0, h1]
    · rw [if_neg h, ih]
      have h2 : (offset - i).toNat = (offset - (i + 1)).toNat + 1 := by omega
      simp [h2]

/-- With an integer limit at least the current count, the loop yields at most
`limit - count` epochs starting at index `offset`. -/
theorem epochsLoop_some_eq (data : List StateVec) (offset l : Int) :
    ∀ count i : Int, count ≤ l →
      epochsLoop data offset (some l) count i =
        ((data.map (·.EPOCH)).drop (offset - i).toNat).take (l - count).toNat := by
  induction data with
  | nil => intro c i _; simp [epochsLoop]
  | cons sv rest ih =>
    intro c i hc
    simp only [epochsLoop, List.map_cons]
    by_cases hcl : l = c
    · rw [if_pos (by rw [hcl])]
      have h0 : (l - c).toNat = 0 := by omega
      simp [h0]
    · rw [if_neg (by simp [hcl])]
      have hlt : c < l := by omega
      by_cases h : offset ≤ i
      · rw [if_pos h, ih (c + 1) (i + 1) (by omega)]
        have h0 : (offset - i).toNat = 0 := by omega
        have h1 : (offset - (i + 1)).toNat = 0 := by omega
        have h2 : (l - c).toNat = (l - (c + 1)).toNat + 1 := by omega
        simp [h0, h1, h2]
      · rw [if_neg h, ih c (i + 1) hc]
        have h2 : (offset - i).toNat = (offset - (i + 1)).toNat + 1 := by omega
        simp [h2]

/-- With an integer limit already strictly below the count (in particular any
negative limit), the `count == limit` break never fires and the loop yields
every epoch from index `offset` on. -/
theorem epochsLoop_some_gt (data : List StateVec) (offset l : Int) :
    ∀ count i : Int, l < count →
      epochsLoop data offset (some l) count i =
        (data.map (·.EPOCH)).drop (offset - i).toNat := by
  induction data with
  | nil => intro c i _; simp [epochsLoop]
  | cons sv rest ih =>
    intro c i hc
    simp only [epochsLoop, List.map_cons]
    rw [if_neg (by simp; omega)]
    by_cases h : offset ≤ i
    · rw [if_pos h, ih (c + 1) (i + 1) (by omega)]
      have h0 : (offset - i).toNat = 0 := by omega
      have h1 : (offset - (i + 1)).toNat = 0 := by omega
      simp [h0, h1]
    · rw [if_neg h, ih c (i + 1) (by omega)]
      have h2 : (offset - i).toNat = (offset - (i + 1)).toNat + 1 := by omega
      simp [h2]

/-! ## Claim C6 -/

/-- C6 (counterexample): with the integer limit `-1` and a one-record store,
`listEpochs` returns one entry, which is not "at most limit entries" — the
claim fails for negative limits because `count == limit` never fires. -/
theorem C6_counterexample :
    epochsLoop [svE0] 0 (some (-1)) 0 0 = ["E0"] ∧
      ¬(((epochsLoop [svE0] 0 (some (-1)) 0 0).length : Int) ≤ -1) := by
  decide

/-- C6 (amended): for every store and all integer offset and limit values,
`listEpochs` returns at most `limit` entries whenever `limit` is
nonnegative (a negative limit disables truncation); the result is always an
initial segment of the epochs from index `offset` on, in store order;
`listEpochs(0, N)` with `N` the store size returns every epoch in store
order; and an out-of-range offset yields an empty result, never an error. -/
theorem C6_listEpochs_window (data : List StateVec) (offset l : Int) :
    (0 ≤ l → ((epochsLoop data offset (some l) 0 0).length : Int) ≤ l)
    ∧ (∃ k : Nat, epochsLoop data offset (some l) 0 0 =
        ((data.map (·.EPOCH)).drop offset.toNat).take k)
    ∧ (offset = 0 → l = (data.length : Int) →
        epochsLoop data offset (some l) 0 0 = data.map (·.EPOCH))
    ∧ ((data.length : Int) ≤ offset → epochsLoop data offset (some l) 0 0 = []) := by
  have hsub : (offset - 0).toNat = offset.toNat := by omega
  refine ⟨?_, ?_, ?_, ?_⟩
  · intro hl
    rw [epochsLoop_some_eq data offset l 0 0 hl]
    have h1 := List.length_take_le (l - 0).toNat ((data.map (·.EPOCH)).drop (offset - 0).toNat)
    omega
  · by_cases hl : 0 ≤ l
    · refine ⟨(l - 0).toNat, ?_⟩
      rw [epochsLoop_some_eq data offset l 0 0 hl, hsub]
    · refine ⟨((data.map (·.EPOCH)).drop offset.toNat).length, ?_⟩
      rw [epochsLoop_some_gt data offset l 0 0 (by omega), hsub, List.take_length]
  · intro h0 hl
    subst h0 hl
    rw [epochsLoop_some_eq data 0 _ 0 0 (by positivity)]
    have h1 : ((data.length : Int) - 0).toNat = (data.map (·.EPOCH)).length := by
      simp
    have h2 : ((0 : Int) - 0).toNat = 0 := by decide
    rw [h1, h2, List.drop_zero, List.take_length]
  · intro hoff
    have hdrop : ((data.map (·.EPOCH)).drop offset.toNat) = [] := by
      apply List.drop_eq_nil_of_le
      simp only [List.length_map]
      omega
    by_cases hl : 0 ≤ l
    · rw [epochsLoop_some_eq data offset l 0 0 hl, hsub, hdrop, List.take_nil]
    · rw [epochsLoop_some_gt data offset l 0 0 (by omega), hsub, hdrop]

/-- C6 (witness): concrete instances of the amended window properties. -/
theorem C6_witness :
    ((epochsLoop [svE0] 0 (some 1) 0 0).length : Int) ≤ 1 ∧
      epochsLoop [svE0] 0 (some 1) 0 0 = [svE0].map (·.EPOCH) ∧
      epochsLoop [svE0] 5 (some 1) 0 0 = [] := by
  refine ⟨(C6_listEpochs_window [svE0] 0 1).1 (by decide),
    (C6_listEpochs_window [svE0] 0 1).2.2.1 rfl (by decide),
    (C6_listEpochs_window [svE0] 5 1).2.2.2 (by decide)⟩

/-! ## Claim C8 -/

/-- C8 (counterexample): the empty string is not parseable as an integer
(`int("")` raises `ValueError`), yet `listEpochs` with `limit=""` returns the
normal full epoch list — the falsy-string guard `if limit:` skips validation
and the loop treats the string limit as "no limit", silently reproducing the
default behavior instead of rejecting. -/
theorem C8_counterexample :
    get_epochs none (some "") [svE0] = .ok ["E0"] ∧
      isRejection (get_epochs none (some "") [svE0]) = false := by
  decide

/-- C8 (amended): every *nonempty* offset or limit query-parameter string
that is not parseable as an integer is rejected with the corresponding
descriptive `Bad input` message (a result distinct by constructor from every
normal epoch list); the empty string, however, bypasses validation. -/
theorem C8_nonempty_unparseable_rejected (s : String) (data : List StateVec)
    (limitP : Option String) (hs : s ≠ "") (hp : pyInt s.data = none) :
    get_epochs (some s) limitP data =
      .bad "Bad input: please specify a positive integer for offset\n"
    ∧ get_epochs none (some s) data =
      .bad "Bad input: please specify a positive integer for limit\n" := by
  have h0 : parseParam "0" = some (some 0) := by decide
  have hps : parseParam s = none := by simp [parseParam, hs, hp]
  constructor
  · simp [get_epochs, hps]
  · simp [get_epochs, h0, hps]

/-- C8 (witness): the non-integer string `"abc"` is rejected in both
parameter positions. -/
theorem C8_witness :
    get_epochs (some "abc") none [svE0] =
      .bad "Bad input: please specify a positive integer for offset\n"
    ∧ get_epochs none (some "abc") [svE0] =
      .bad "Bad input: please specify a positive integer for limit\n" :=
  C8_nonempty_unparseable_rejected "abc" [svE0] none (by decide) (by decide)

/-! ## Characterization of the `get_state_vectors` scan -/

/-- Normalizing a record does not change its semantic content. -/
theorem svValue_fromNorm_toNorm (sv : StateVec) :
    svValue (fromNorm (toNorm sv)) = svValue sv := by
  cases sv with
  | mk e x y z xd yd zd =>
    cases x <;> cases y <;> cases z <;> cases xd <;> cases yd <;> cases zd <;> rfl

/-- The store after the scan: every record whose epoch matches has been
normalized in place, all others are untouched. -/
theorem svScanAux_snd (epoch : String) (data : List StateVec) :
    ∀ acc, (svScanAux epoch acc data).2 =
      data.map (fun sv => if sv.EPOCH = epoch then fromNorm (toNorm sv) else sv) := by
  induction data with
  | nil => intro acc; rfl
  | cons sv rest ih =>
    intro acc
    by_cases h : sv.EPOCH = epoch
    · simp [svScanAux, h, ih]
    · simp [svScanAux, h, ih]

/-- The optional last element of a cons cell, in terms of the tail's. -/
theorem getLast?_cons_or {α : Type} (a : α) (l : List α) :
    (a :: l).getLast? = l.getLast?.or (some a) := by
  cases l <;> simp [List.getLast?]

/-- The returned record: the last match (normalized) if any, else the
accumulator. -/
theorem svScanAux_fst (epoch : String) (data : List StateVec) :
    ∀ acc, (svScanAux epoch acc data).1 =
      (((data.filter (fun sv => sv.EPOCH == epoch)).getLast?).map toNorm).or acc := by
  induction data with
  | nil => intro acc; rfl
  | cons sv rest ih =>
    intro acc
    by_cases h : sv.EPOCH = epoch
    · have hfc : (sv :: rest).filter (fun sv => sv.EPOCH == epoch) =
          sv :: rest.filter (fun sv => sv.EPOCH == epoch) := by
        simp [List.filter_cons, h]
      rw [hfc, getLast?_cons_or]
      show (svScanAux epoch acc (sv :: rest)).1 = _
      simp only [svScanAux, if_pos h]
      rw [ih]
      cases hr : (rest.filter (fun sv => sv.EPOCH == epoch)).getLast? <;> simp [hr]
    · have hfc : (sv :: rest).filter (fun sv => sv.EPOCH == epoch) =
          rest.filter (fun sv => sv.EPOCH == epoch) := by
        simp [List.filter_cons, h]
      rw [hfc]
      simp only [svScanAux, if_neg h]
      exact ih acc

/-- The store after a `get_state_vectors` call keeps the same sequence of
semantic record contents (length, order, epochs, numeric values). -/
theorem get_state_vectors_store_values (epoch : String) (data : List StateVec) :
    ((get_state_vectors epoch data).2).map svValue = data.map svValue := by
  rw [get_state_vectors, svScanAux_snd, List.map_map]
  refine List.map_congr_left ?_
  intro sv _
  by_cases h : sv.EPOCH = epoch
  · simp [h, svValue_fromNorm_toNorm]
  · simp [h]

/-- `get_speed` leaves the store exactly as `get_state_vectors` left it. -/
theorem get_speed_snd (epoch : String) (data : List StateVec) :
    (get_speed epoch data).2 = (get_state_vectors epoch data).2 := by
  rcases hsv : get_state_vectors epoch data with ⟨res, d'⟩
  cases res <;> simp [get_speed, hsv]

/-- `get_location` leaves the store exactly as `get_state_vectors` left it. -/
theorem get_location_snd (geo : ℝ → ℝ → Option String) (epoch : String)
    (data : List StateVec) :
    (get_location geo epoch data).2 = (get_state_vectors epoch data).2 := by
  rcases hsv : get_state_vectors epoch data with ⟨res, d'⟩
  cases res with
  | none => simp [get_location, hsv]
  | some n =>
    cases hh : pyInt ((n.EPOCH.data.drop 9).take 2) with
    | none => simp [get_location, hsv, hh]
    | some hrs =>
      cases hm : pyInt ((n.EPOCH.data.drop 12).take 2) with
      | none => simp [get_location, hsv, hh, hm]
      | some mins => simp [get_location, hsv, hh, hm]

/-- The store after a `get_location` call keeps the same semantic contents. -/
theorem get_location_store_values (geo : ℝ → ℝ → Option String) (epoch : String)
    (data : List StateVec) :
    ((get_location geo epoch data).2).map svValue = data.map svValue := by
  rw [get_location_snd, get_state_vectors_store_values]

/-- The store after a `get_now` call keeps the same semantic contents. -/
theorem get_now_store_values (es : String → ℚ) (ref : ℚ)
    (geo : ℝ → ℝ → Option String) (data : List StateVec) :
    ((get_now es ref geo data).2).map svValue = data.map svValue := by
  cases data with
  | nil => rfl
  | cons first rest =>
    obtain ⟨mdiff, msv, hscan⟩ :
        ∃ a b, nowScan es ref (first :: rest) (ref - es first.EPOCH) none = (a, b) :=
      ⟨_, _, rfl⟩
    unfold get_now
    dsimp only
    rw [hscan]
    cases msv with
    | none => rfl
    | some winner =>
      dsimp only
      obtain ⟨lr, d', hloc⟩ :
          ∃ lr d', get_location geo winner.EPOCH (first :: rest) = (lr, d') :=
        ⟨_, _, rfl⟩
      rw [hloc]
      have hd' : d'.map svValue = (first :: rest).map svValue := by
        have := get_location_store_values geo winner.EPOCH (first :: rest)
        rw [hloc] at this
        exact this
      have hsp : ((get_speed winner.EPOCH d').2).map svValue =
          (first :: rest).map svValue := by
        rw [get_speed_snd, get_state_vectors_store_values, hd']
      cases lr <;> simp [hsp, hd']

/-! ## Claim C3 -/

/-- C3 (counterexample): a find-by-epoch query rewrites the matched record's
nested position/velocity fields to plain floats in place, so the stored
sequence is *not* exactly what it was before. -/
theorem C3_counterexample :
    (get_state_vectors "E0" [svE0]).2 = [fromNorm (toNorm svE0)] ∧
      (get_state_vectors "E0" [svE0]).2 ≠ [svE0] := by
  decide

/-- C3 (amended): every read-only query preserves the store as a sequence of
samples — length, order, epoch keys and the numeric value of every
position/velocity field are unchanged — but find-by-epoch (and the speed,
location and now operations built on it) normalizes each matched record's
fields in place from the nested parsed shape to plain numbers, so the exact
field representation is not always preserved. -/
theorem C3_queries_preserve_store_content (geo : ℝ → ℝ → Option String)
    (es : String → ℚ) (ref : ℚ) (epoch : String) (data : List StateVec) :
    ((get_state_vectors epoch data).2).map svValue = data.map svValue
    ∧ ((get_speed epoch data).2).map svValue = data.map svValue
    ∧ ((get_location geo epoch data).2).map svValue = data.map svValue
    ∧ ((get_now es ref geo data).2).map svValue = data.map svValue :=
  ⟨get_state_vectors_store_values epoch data,
    by rw [get_speed_snd]; exact get_state_vectors_store_values epoch data,
    get_location_store_values geo epoch data,
    get_now_store_values es ref geo data⟩

/-! ## Claim C5 -/

/-- C5 (counterexample): with two distinct records sharing an epoch,
`findByEpoch` returns the *last* matching record in sequence order, not the
first (the scan has no break and keeps overwriting `epoch_output`). -/
theorem C5_counterexample :
    (get_state_vectors "EDUP" [svDupA, svDupB]).1 = some (toNorm svDupB) ∧
      toNorm svDupB ≠ toNorm svDupA := by
  decide

/-- C5 (amended): for every store and epoch string, `findByEpoch` returns
the last record in sequence order whose epoch field equals the argument
exactly (case-sensitive, full-string; under the dataset invariant of unique
epochs this coincides with the first match), with its fields normalized;
when no record matches it returns an empty result — not an error — and the
speed and location operations return their own empty results exactly in
that case. -/
theorem C5_findByEpoch_last_match (geo : ℝ → ℝ → Option String) (epoch : String)
    (data : List StateVec) :
    (get_state_vectors epoch data).1 =
      ((data.filter (fun sv => sv.EPOCH == epoch)).getLast?).map toNorm
    ∧ ((get_speed epoch data).1 = none ↔ (get_state_vectors epoch data).1 = none)
    ∧ ((get_location geo epoch data).1 = LocResult.empty ↔
        (get_state_vectors epoch data).1 = none) := by
  obtain ⟨res, d', hsv⟩ :
      ∃ r d', get_state_vectors epoch data = (r, d') := ⟨_, _, rfl⟩
  refine ⟨?_, ?_, ?_⟩
  · rw [get_state_vectors, svScanAux_fst]
    cases ((data.filter (fun sv => sv.EPOCH == epoch)).getLast?) <;> rfl
  · unfold get_speed
    rw [hsv]
    cases res <;> simp
  · unfold get_location
    rw [hsv]
    cases res with
    | none => simp
    | some n =>
      cases hh : pyInt ((n.EPOCH.data.drop 9).take 2) with
      | none => simp [hh]
      | some hrs =>
        cases hm : pyInt ((n.EPOCH.data.drop 12).take 2) with
        | none => simp [hh, hm]
        | some mins => simp [hh, hm]

/-! ## Claim C7 -/

/-- C7 (counterexample): when the fetched document parses as XML but lacks
the state-vector key path, the first of the two global assignments has
already replaced the store, so the store afterwards holds the raw parsed
document instead of the records it held before. -/
theorem C7_counterexample :
    post_data (some "doc") (fun _ => some "parsed") (fun _ => none)
        (.records [svE0]) = (.raised, .raw "parsed") ∧
      StoreVal.raw "parsed" ≠ .records [svE0] := by
  decide

/-- C7 (amended): if the upstream fetch raises, or the XML parse of the
fetched text raises, the store holds exactly what it held before; but if the
parsed document lacks the expected state-vector key path, the store is left
holding the raw parsed document (the reload is not atomic in that case); on
full success the store holds exactly the new records. -/
theorem C7_reload_failure_atomicity (fetch : Option String)
    (parseXml : String → Option String) (extract : String → Option (List StateVec))
    (store : StoreVal) :
    (fetch = none → post_data fetch parseXml extract store = (.raised, store))
    ∧ (∀ t, fetch = some t → parseXml t = none →
        post_data fetch parseXml extract store = (.raised, store))
    ∧ (∀ t d, fetch = some t → parseXml t = some d → extract d = none →
        post_data fetch parseXml extract store = (.raised, .raw d))
    ∧ (∀ t d recs, fetch = some t → parseXml t = some d → extract d = some recs →
        post_data fetch parseXml extract store = (.ok, .records recs)) := by
  refine ⟨?_, ?_, ?_, ?_⟩
  · intro h; rw [h]; rfl
  · intro t ht hp; rw [ht]; simp [post_data, hp]
  · intro t d ht hp he; rw [ht]; simp [post_data, hp, he]
  · intro t d recs ht hp he; rw [ht]; simp [post_data, hp, he]

/-- C7 (witness): concrete instances of all four reload outcomes. -/
theorem C7_witness :
    post_data none (fun _ => none) (fun _ => none) (.records [svE0]) =
        (.raised, .records [svE0])
    ∧ post_data (some "t") (fun _ => none) (fun _ => none) (.records [svE0]) =
        (.raised, .records [svE0])
    ∧ post_data (some "t") (fun _ => some "d") (fun _ => none) (.records [svE0]) =
        (.raised, .raw "d")
    ∧ post_data (some "t") (fun _ => some "d") (fun _ => some [svE1]) (.records [svE0]) =
        (.ok, .records [svE1]) :=
  ⟨(C7_reload_failure_atomicity none (fun _ => none) (fun _ => none)
      (.records [svE0])).1 rfl,
    (C7_reload_failure_atomicity (some "t") (fun _ => none) (fun _ => none)
      (.records [svE0])).2.1 "t" rfl rfl,
    (C7_reload_failure_atomicity (some "t") (fun _ => some "d") (fun _ => none)
      (.records [svE0])).2.2.1 "t" "d" rfl rfl rfl,
    (C7_reload_failure_atomicity (some "t") (fun _ => some "d") (fun _ => some [svE1])
      (.records [svE0])).2.2.2 "t" "d" [svE1] rfl rfl rfl⟩

/-! ## Claim C10 -/

/-- C10 (confirmed): a successful reload that parses into `recs` followed by
the list-all query returns exactly `recs` in order, and a delete followed by
list-all returns the empty sequence, for every prior store contents. -/
theorem C10_replace_clear_roundtrip (recs : List StateVec) (store : StoreVal) :
    index (post_data (some "t") (fun _ => some "d") (fun _ => some recs) store).2 =
        .records recs
    ∧ index (delete_data store).2 = .records [] := by
  exact ⟨rfl, rfl⟩

/-! ## Claims C1 and C2 -/

/-- C1 (code bug, failing input): a two-record store whose *first* record is
strictly nearest to the reference time.  The scan's strict `<` comparison
never fires, so `min_state_vector` — initialized under the misspelled name
`min_state_vec` — is read unassigned at source line 170 and the route raises
`UnboundLocalError` instead of returning the first-encountered minimal
record. -/
theorem C1_now_crashes_when_first_is_nearest :
    get_now esC1 0 (fun _ _ => none) [svE0, svE1] = (.raised, [svE0, svE1]) := by
  unfold get_now
  dsimp only
  rw [show (nowScan esC1 0 [svE0, svE1] ((0 : ℚ) - esC1 svE0.EPOCH) none).2 = none from by
    simp [nowScan, esC1, svE0, svE1]
    norm_num]

/-- C2 (code bug, failing input): on every singleton store the now-snapshot
operation raises (`UnboundLocalError`), so not every core operation is total
over ordinary store contents. -/
theorem C2_now_raises_on_singleton_store :
    get_now (fun _ => (0 : ℚ)) 0 (fun _ _ => none) [svE0] = (.raised, [svE0]) := by
  unfold get_now
  dsimp only
  rw [show (nowScan (fun _ => (0 : ℚ)) 0 [svE0] ((0 : ℚ) - 0) none).2 = none from by
    simp [nowScan]]

/-! ## Claim C9 -/

/-- Range of the four-quadrant arctangent model: `(-pi, pi]`. -/
theorem atan2_bounds (y x : ℝ) : -Real.pi < atan2 y x ∧ atan2 y x ≤ Real.pi := by
  have hpi := Real.pi_pos
  have h1 : Real.arctan (y / x) < Real.pi / 2 := Real.arctan_lt_pi_div_two _
  have h2 : -(Real.pi / 2) < Real.arctan (y / x) := Real.neg_pi_div_two_lt_arctan _
  unfold atan2
  split_ifs with hx hxneg hy hypos hyneg
  · exact ⟨by linarith, by linarith⟩
  · have hdiv : y / x ≤ 0 := div_nonpos_of_nonneg_of_nonpos hy hxneg.le
    have h3 : Real.arctan (y / x) ≤ 0 := by
      have := Real.arctan_strictMono.monotone hdiv
      simpa [Real.arctan_zero] using this
    exact ⟨by linarith, by linarith⟩
  · have hdiv : 0 < y / x := div_pos_of_neg_of_neg (by linarith) hxneg
    have h3 : 0 < Real.arctan (y / x) := by
      have := Real.arctan_strictMono hdiv
      simpa [Real.arctan_zero] using this
    exact ⟨by linarith, by linarith⟩
  · exact ⟨by linarith, by linarith⟩
  · exact ⟨by linarith, by linarith⟩
  · exact ⟨by linarith, by linarith⟩

/-- The raw longitude `degrees (atan2 y x)` lies in `(-180, 180]`. -/
theorem degrees_atan2_bounds (y x : ℝ) :
    -180 < degrees (atan2 y x) ∧ degrees (atan2 y x) ≤ 180 := by
  obtain ⟨hl, hu⟩ := atan2_bounds y x
  have hpi := Real.pi_pos
  unfold degrees
  constructor
  · rw [lt_div_iff₀ hpi]
    linarith
  · rw [div_le_iff₀ hpi]
    linarith

/-- C9 (counterexample): for the finite inputs `x = 1`, `y = 0`, `hour = 51`,
`minute = 0` (hour 51 is outside any valid time of day but is a finite
integer, exactly what two arbitrary ASCII digits can produce), the single
conditional wrap is not enough: the computed longitude is `-201`, outside
`[-180, 180]`. -/
theorem C9_counterexample :
    pyLongitude 1 0 51 0 = -201 ∧ pyLongitude 1 0 51 0 < -180 := by
  have hat : atan2 0 1 = 0 := by
    unfold atan2
    rw [if_pos (by norm_num : (0 : ℝ) < 1)]
    norm_num [Real.arctan_zero]
  have h1 : pyLongitude 1 0 51 0 = -201 := by
    unfold pyLongitude
    have hL : degrees (atan2 0 1) - (((51 : ℤ) : ℝ) - 12 + ((0 : ℤ) : ℝ) / 60) * (360 / 24)
        + 24 = -561 := by
      rw [hat]
      unfold degrees
      norm_num
    rw [hL]
    rw [if_neg (by norm_num), if_pos (by norm_num)]
    norm_num
  exact ⟨h1, by rw [h1]; norm_num⟩

/-- C9 (amended): for arbitrary finite `x`, `y` and any *valid time-of-day*
hour and minute fields (hour 0-23, minute 0-59), the longitude produced by
the geodetic conversion always lies in `[-180, 180]` — one wrap adjustment
suffices because the Earth-rotation correction is then bounded by 180
degrees in magnitude. -/
theorem C9_longitude_in_range (x y : ℝ) (hrs mins : ℤ)
    (hh0 : 0 ≤ hrs) (hh1 : hrs ≤ 23) (hm0 : 0 ≤ mins) (hm1 : mins ≤ 59) :
    -180 ≤ pyLongitude x y hrs mins ∧ pyLongitude x y hrs mins ≤ 180 := by
  obtain ⟨hdl, hdu⟩ := degrees_atan2_bounds y x
  have hh0' : (0 : ℝ) ≤ (hrs : ℝ) := by exact_mod_cast hh0
  have hh1' : (hrs : ℝ) ≤ 23 := by exact_mod_cast hh1
  have hm0' : (0 : ℝ) ≤ (mins : ℝ) := by exact_mod_cast hm0
  have hm1' : (mins : ℝ) ≤ 59 := by exact_mod_cast hm1
  unfold pyLongitude
  dsimp only
  have hC1 : -180 ≤ (((hrs : ℝ) - 12) + (mins : ℝ) / 60) * (360 / 24) := by nlinarith
  have hC2 : (((hrs : ℝ) - 12) + (mins : ℝ) / 60) * (360 / 24) ≤ 180 := by nlinarith
  split_ifs with h1 h2
  · constructor <;> linarith
  · constructor <;> linarith
  · constructor <;> linarith

/-- C9 (witness): the valid-time instance hour 12, minute 0 with the
scenario position keeps the longitude in range. -/
theorem C9_witness :
    -180 ≤ pyLongitude 6800 0 12 0 ∧ pyLongitude 6800 0 12 0 ≤ 180 :=
  C9_longitude_in_range 6800 0 12 0 (by norm_num) (by norm_num) (by norm_num) (by norm_num)

/-! ## Claim C4 -/

/-- The four-quadrant arctangent vanishes on the positive x-axis. -/
theorem atan2_zero_pos (x : ℝ) (hx : 0 < x) : atan2 0 x = 0 := by
  unfold atan2
  rw [if_pos hx]
  norm_num [Real.arctan_zero]

/-- Zero radians is zero degrees. -/
theorem degrees_zero : degrees 0 = 0 := by
  unfold degrees
  simp

/-- Evaluation of the scenario lookup: the single record is found,
normalized, and the store holds its normalized form. -/
theorem scenario_sv_eval :
    get_state_vectors "2023-058T12:00:00.000Z" [svScn] =
      (some (toNorm svScn), [fromNorm (toNorm svScn)]) := by
  simp [get_state_vectors, svScanAux, svScn]

/-- Evaluation of the scenario speed: `sqrt(0² + 7.5² + 0²) = 7.5` km/s. -/
theorem scenario_speed_eval :
    (get_speed "2023-058T12:00:00.000Z" [svScn]).1 = some 7.5 := by
  unfold get_speed
  rw [scenario_sv_eval, show toNorm svScn =
    ⟨"2023-058T12:00:00.000Z", 6800, 0, 0, 0, 7.5, 0⟩ from by
      simp [toNorm, svScn, fvVal]]
  dsimp only
  congr 1
  push_cast
  rw [show (0 : ℝ) ^ 2 + 7.5 ^ 2 + 0 ^ 2 = 7.5 ^ 2 by norm_num,
    Real.sqrt_sq (by norm_num : (0 : ℝ) ≤ 7.5)]

/-- Evaluation of the scenario location: latitude 0, longitude 24 (raw
longitude 0, rotation correction 0, plus the fixed 24-degree offset),
altitude exactly 421.863 km, ocean sentinel from a geocoder with no
coverage. -/
theorem scenario_location_eval :
    (get_location (fun _ _ => none) "2023-058T12:00:00.000Z" [svScn]).1 =
      .found 0 24 421.863 OCEAN_SENTINEL := by
  unfold get_location
  rw [scenario_sv_eval, show toNorm svScn =
    ⟨"2023-058T12:00:00.000Z", 6800, 0, 0, 0, 7.5, 0⟩ from by
      simp [toNorm, svScn, fvVal]]
  dsimp only
  rw [show pyInt (("2023-058T12:00:00.000Z".data.drop 9).take 2) = some 12 from by decide]
  rw [show pyInt (("2023-058T12:00:00.000Z".data.drop 12).take 2) = some 0 from by decide]
  dsimp only
  congr 1
  · push_cast
    rw [show (6800 : ℝ) ^ 2 + 0 ^ 2 = 6800 ^ 2 by norm_num,
      Real.sqrt_sq (by norm_num : (0 : ℝ) ≤ 6800),
      atan2_zero_pos 6800 (by norm_num), degrees_zero]
  · push_cast
    unfold pyLongitude
    have hL : degrees (atan2 0 6800) -
        (((12 : ℤ) : ℝ) - 12 + ((0 : ℤ) : ℝ) / 60) * (360 / 24) + 24 = 24 := by
      rw [atan2_zero_pos 6800 (by norm_num), degrees_zero]
      norm_num
    rw [hL]
    rw [if_neg (by norm_num), if_neg (by norm_num)]
  · push_cast
    rw [show (6800 : ℝ) ^ 2 + 0 ^ 2 + 0 ^ 2 = 6800 ^ 2 by norm_num,
      Real.sqrt_sq (by norm_num : (0 : ℝ) ≤ 6800)]
    unfold MEAN_EARTH_RADIUS
    norm_num

/-- C4 (counterexample): in the specification's scenario the location
operation returns longitude 24 degrees, not 0 — the raw longitude and the
rotation correction are both 0, but the code always adds the fixed
24-degree offset before wrapping. -/
theorem C4_counterexample :
    (get_location (fun _ _ => none) "2023-058T12:00:00.000Z" [svScn]).1 =
      .found 0 24 421.863 OCEAN_SENTINEL ∧ (24 : ℝ) ≠ 0 :=
  ⟨scenario_location_eval, by norm_num⟩

/-- C4 (amended): for the store containing exactly the scenario record
(epoch `2023-058T12:00:00.000Z`, position (6800, 0, 0) km, velocity
(0, 7.5, 0) km/s), the speed operation returns 7.5 km/s and the location
operation returns latitude 0 degrees, longitude 24 degrees (raw longitude 0,
correction 0, plus the fixed 24-degree offset), and altitude exactly
421.863 km. -/
theorem C4_scenario_speed_location :
    (get_speed "2023-058T12:00:00.000Z" [svScn]).1 = some 7.5
    ∧ (get_location (fun _ _ => none) "2023-058T12:00:00.000Z" [svScn]).1 =
        .found 0 24 421.863 OCEAN_SENTINEL :=
  ⟨scenario_speed_eval, scenario_location_eval⟩
